import Mathlib

/-!
Verification of the repository-metrics collector (`src/gh_client.py`) of
GAS-Open-Source-Games-2026.

The Python code is shallowly embedded: timestamps are rationals (seconds),
HTTP responses are records, the nondeterministic environment (network
outcomes, upstream bodies, the clock) is passed in explicitly, and Python
exceptions are modelled with `Except`.  Each definition mirrors one Python
function, keeping its name where Lean allows.
-/

namespace GhClient

/-- Python truthiness of an optional string (`if s:`): `None` and the empty
string are falsy. -/
def pyTruthy : Option String → Bool
  | none => false
  | some s => s ≠ ""

/-- Python `a or b` over optional strings. -/
def pyOr (a b : Option String) : Option String :=
  if pyTruthy a then a else b

/-- Round half to even, as Python `round` does on an exact value. -/
def roundHalfEven (q : ℚ) : ℤ :=
  let f := ⌊q⌋
  let r := q - f
  if r < 1 / 2 then f
  else if 1 / 2 < r then f + 1
  else if f % 2 = 0 then f else f + 1

/-- Python `round(q, 2)` on an exact value. -/
def pyRound2 (q : ℚ) : ℚ :=
  (roundHalfEven (q * 100) : ℚ) / 100

/-- An HTTP response as the executor sees it: status code and the two
rate-limit headers read by `_respect_rate_limit` (`X-RateLimit-Remaining`,
`X-RateLimit-Reset`), each absent or a string. -/
structure HttpResp where
  status : Nat
  rlRemaining : Option String := none
  rlReset : Option String := none
deriving DecidableEq, Repr

/-- Outcome of one `session.get` call: a transport-level exception
(`requests.exceptions.RequestException`) or a response. -/
inductive AttemptOutcome where
  | raise
  | ok (r : HttpResp)
deriving DecidableEq, Repr

/-- Python exceptions that can escape `_safe_request`:
`UnboundLocalError` from `return resp` when `resp` was never assigned, and
`ValueError` from `int(reset)` on a non-numeric reset header. -/
inductive PyExn where
  | unboundLocal
  | valueError
deriving DecidableEq, Repr

/-- One decimal digit of a header string, by code point. -/
def charDigit (c : Char) : Option ℕ :=
  if 48 ≤ c.toNat ∧ c.toNat ≤ 57 then some (c.toNat - 48) else none

/-- Value of a nonempty, all-digit character list; `none` otherwise. -/
def digitsVal : List Char → Option ℕ
  | [] => none
  | cs =>
    cs.foldl
      (fun acc c =>
        match acc, charDigit c with
        | some a, some d => some (a * 10 + d)
        | _, _ => none)
      (some 0)

/-- Python `int(s)` on a header string: optional sign, then digits;
`none` models the `ValueError` on anything else.  (Python also strips
whitespace and allows underscores; those inputs never matter here.) -/
def toIntPy (s : String) : Option ℤ :=
  match s.data with
  | '-' :: rest => (digitsVal rest).map (fun n => -(n : ℤ))
  | cs => (digitsVal cs).map (fun n => (n : ℤ))

/-- `_respect_rate_limit(resp)`, lines 23-31.  Returns the sleep it performs
(`some` seconds) or `none` when it does not sleep; `int(reset)` on a
non-numeric header raises `ValueError` (uncaught in the caller).  `now` is
`int(time.time())` at the moment of the call. -/
def respect_rate_limit (now : ℤ) (r : HttpResp) : Except PyExn (Option ℚ) :=
  if r.status = 403 then
    match r.rlRemaining, r.rlReset with
    | some rem, some reset =>
      if rem = "0" ∧ reset ≠ "" then
        match toIntPy reset with
        | some ts => .ok (some ((max 0 (ts - now) + 1 : ℤ) : ℚ))
        | none => .error .valueError
      else .ok none
    | _, _ => .ok none
  else .ok none

/-- What one run of `_safe_request` does: the value handed to the caller
(a response, or an escaped exception), the sleeps performed in order
(seconds), and the number of `session.get` calls issued. -/
structure RunResult where
  result : Except PyExn HttpResp
  sleeps : List ℚ
  requests : Nat

/-- The retry loop of `_safe_request`, lines 35-45.  `att i` is the clock
reading and outcome of the `i`-th `session.get` call; `fuel` is the number
of loop iterations left (5 at entry); `last` is the current binding of the
Python local `resp` (`none` = never assigned). -/
def safe_request_go (att : Nat → ℤ × AttemptOutcome) (i fuel : Nat)
    (last : Option HttpResp) : RunResult :=
  match fuel with
  | 0 =>
    -- `return resp` after the loop: UnboundLocalError if never assigned.
    { result := match last with
        | some r => .ok r
        | none => .error .unboundLocal,
      sleeps := [], requests := 0 }
  | fuel + 1 =>
    let now := (att i).1
    match (att i).2 with
    | .raise =>
      -- `except RequestException: time.sleep(1.5)`; `resp` keeps its old binding.
      let rest := safe_request_go att (i + 1) fuel last
      { result := rest.result, sleeps := (3 / 2 : ℚ) :: rest.sleeps,
        requests := rest.requests + 1 }
    | .ok r =>
      if r.status = 403 then
        -- `_respect_rate_limit(resp); continue` — note: no 1.5 s sleep here.
        match respect_rate_limit now r with
        | .error e => { result := .error e, sleeps := [], requests := 1 }
        | .ok none =>
          let rest := safe_request_go att (i + 1) fuel (some r)
          { result := rest.result, sleeps := rest.sleeps,
            requests := rest.requests + 1 }
        | .ok (some s) =>
          let rest := safe_request_go att (i + 1) fuel (some r)
          { result := rest.result, sleeps := s :: rest.sleeps,
            requests := rest.requests + 1 }
      else if r.status = 200 ∨ r.status = 201 then
        { result := .ok r, sleeps := [], requests := 1 }
      else
        -- other status: `time.sleep(1.5)` and loop again.
        let rest := safe_request_go att (i + 1) fuel (some r)
        { result := rest.result, sleeps := (3 / 2 : ℚ) :: rest.sleeps,
          requests := rest.requests + 1 }

/-- `_safe_request(session, url, params)`, lines 34-46: five attempts,
`resp` initially unbound. -/
def safe_request (att : Nat → ℤ × AttemptOutcome) : RunResult :=
  safe_request_go att 0 5 none

/-- One page of a commit listing as returned through `_safe_request`: the
status code and the decoded JSON array (items abstracted as naturals). -/
structure Page where
  status : Nat
  batch : List Nat
deriving DecidableEq, Repr

/-- The `while True` page walk shared by `_collect_all_commits`
(lines 97-111) and `_collect_commits_since` (lines 80-94): request page
`page`, stop on a non-200 status or an empty batch, extend, stop after a
batch shorter than 100, else advance to `page + 1`.  `pages p` is the
response to the request for page `p`.  The Python loop has no bound of its
own; `fuel` caps the number of iterations the embedding can take, and every
theorem below supplies enough of it.  Returns the accumulated items and the
list of page numbers requested, in request order. -/
def page_walk_go (pages : Nat → Page) (fuel page : Nat) : List Nat × List Nat :=
  match fuel with
  | 0 => ([], [])
  | fuel + 1 =>
    let p := pages page
    if p.status ≠ 200 then ([], [page])
    else if p.batch = [] then ([], [page])
    else if p.batch.length < 100 then (p.batch, [page])
    else
      let rest := page_walk_go pages fuel (page + 1)
      (p.batch ++ rest.1, page :: rest.2)

/-- `_collect_all_commits(session, commits_url)`: the walk starts at page 1. -/
def collect_all_commits (pages : Nat → Page) (fuel : Nat) : List Nat × List Nat :=
  page_walk_go pages fuel 1

/-- `_collect_commits_since(session, commits_url, since_iso)`: the same walk
(the `since` parameter only changes the request, not the control flow). -/
def collect_commits_since (pages : Nat → Page) (fuel : Nat) : List Nat × List Nat :=
  page_walk_go pages fuel 1

/-- One commit record, keeping the fields `get_gh_data` reads:
`commit.committer.date`, `author.login`, `committer.login`,
`commit.committer.email` (each possibly absent). -/
structure Commit where
  date : Option String
  authorLogin : Option String
  committerLogin : Option String
  email : Option String
deriving DecidableEq, Repr

/-- Committer identity resolution, lines 192-194:
`login = (author or {}).get('login') or (committer or {}).get('login')`,
then `if not login: login = email or 'unknown'`. -/
def loginOf (c : Commit) : String :=
  let l := pyOr c.authorLogin c.committerLogin
  (if pyTruthy l then l else pyOr c.email (some "unknown")).getD "unknown"

/-- The `unique_committers` set of lines 190-195, represented by the list of
inserted identities; the set's cardinality is the length of its `dedup`. -/
def uniqueCommitters (cs : List Commit) : List String :=
  (cs.map loginOf).dedup

/-- `dt.date()` of a parsed timestamp, as a day index. -/
def dayOf (dt : ℚ) : ℤ := ⌊dt / 86400⌋

/-- The recent-commit loop of lines 175-187: skip a falsy date string, skip
a date that fails to parse, and for dates at or after the 180-day boundary
bump `commits_last_6m` and record the day.  `parse s` models
`datetime.fromisoformat(s.replace('Z', '+00:00'))`, `none` = `ValueError`.
Returns `(commits_last_6m, unique_commit_days insertions)`. -/
def recentStats (parse : String → Option ℚ) (sixMonthsAgo : ℚ)
    (cs : List Commit) : Nat × List ℤ :=
  cs.foldl
    (fun acc c =>
      if ¬ pyTruthy c.date then acc
      else
        match parse (c.date.getD "") with
        | none => acc
        | some dt =>
          if sixMonthsAgo ≤ dt then (acc.1 + 1, acc.2 ++ [dayOf dt]) else acc)
    (0, [])

/-- One issue item from the search endpoint: `created_at` / `closed_at`. -/
structure Issue where
  created_at : Option String
  closed_at : Option String
deriving DecidableEq, Repr

/-- The close-delta loop of lines 203-217: skip falsy timestamps, skip a
`ValueError` from either parse, keep `(closed - created)` in days when the
closing time is at or after the boundary and the delta is non-negative. -/
def closeDeltas (parse : String → Option ℚ) (sixMonthsAgo : ℚ)
    (items : List Issue) : List ℚ :=
  items.foldl
    (fun acc it =>
      if ¬ pyTruthy it.created_at ∨ ¬ pyTruthy it.closed_at then acc
      else
        match parse (it.created_at.getD ""), parse (it.closed_at.getD "") with
        | some cdt, some xdt =>
          if sixMonthsAgo ≤ xdt then
            if 0 ≤ (xdt - cdt) / 86400 then acc ++ [(xdt - cdt) / 86400] else acc
          else acc
        | _, _ => acc)
    []

/-- Line 218: `round(sum/len, 2) if close_deltas else None`. -/
def avgIssueCloseTime (ds : List ℚ) : Option ℚ :=
  if ds = [] then none else some (pyRound2 (ds.sum / ds.length))

/-- Lines 220-231: `repo_age_days` and `days_of_activity`.  The one `try`
block covers both `fromisoformat` calls, so a `ValueError` on the latest
commit date lands in the `except` that resets `repo_age_days` to `None`.
`timedelta.days` is a floor. -/
def computeAges (parse : String → Option ℚ) (now : ℚ)
    (created_at latest_commit_date : Option String) : Option ℤ × Option ℤ :=
  if ¬ pyTruthy created_at then (none, none)
  else
    match parse (created_at.getD "") with
    | none => (none, none)
    | some cdt =>
      if ¬ pyTruthy latest_commit_date then
        (some ⌊(now - cdt) / 86400⌋, none)
      else
        match parse (latest_commit_date.getD "") with
        | none => (none, none)
        | some ldt =>
          (some ⌊(now - cdt) / 86400⌋, some ⌊(ldt - cdt) / 86400⌋)

/-- A value in the emitted record: a number, a string, or the missing value
(`None`, which pandas serialises as an empty cell). -/
inductive Val where
  | null
  | num (q : ℚ)
  | str (s : String)
deriving DecidableEq, Repr

def valOfOptStr : Option String → Val
  | none => .null
  | some s => .str s

def valOfOptInt : Option ℤ → Val
  | none => .null
  | some n => .num n

/-- The repository-info body fields `get_gh_data` reads (`repo_info.get`,
so each may be absent). -/
structure RepoInfo where
  language : Option String := none
  created_at : Option String := none
  forks_count : Option ℤ := none
  watchers_count : Option ℤ := none
  stargazers_count : Option ℤ := none
  open_issues_count : Option ℤ := none
deriving DecidableEq, Repr

/-- The derived fields of one emitted record (the dict merged onto the
input row at lines 233-252). -/
structure Record where
  language : Val
  createdAt : Val
  repoAge : Val
  forks : Val
  watchers : Val
  stars : Val
  openIssues : Val
  closedIssues : Val
  totalIssues : Val
  issuesOpenedLast6Months : Val
  avgIssueCloseTime : Val
  commits : Val
  dateOfLastCommit : Val
  daysOfActivity : Val
  commitsInLast6Months : Val
  committersParticipation : Val
deriving DecidableEq, Repr

/-- The record construction of lines 233-251, from the fetched pieces. -/
def buildRecord (parse : String → Option ℚ) (now sixMonthsAgo : ℚ)
    (info : RepoInfo) (total_commits : Option ℤ)
    (latest_commit_date : Option String)
    (recent_commits all_commits : List Commit)
    (total_issues open_issues closed_issues issues_opened_last_6m : Option ℤ)
    (closed_recent_items : List Issue) : Record :=
  let stats := recentStats parse sixMonthsAgo recent_commits
  let committers := uniqueCommitters all_commits
  let avg := avgIssueCloseTime (closeDeltas parse sixMonthsAgo closed_recent_items)
  let ages := computeAges parse now info.created_at latest_commit_date
  { language := valOfOptStr info.language
    createdAt := valOfOptStr info.created_at
    repoAge := valOfOptInt ages.1
    forks := valOfOptInt info.forks_count
    watchers := valOfOptInt info.watchers_count
    stars := valOfOptInt info.stargazers_count
    openIssues :=
      match open_issues with
      | some n => .num n
      | none => valOfOptInt info.open_issues_count
    closedIssues := .num ((closed_issues.getD 0 : ℤ) : ℚ)
    totalIssues := .num ((total_issues.getD 0 : ℤ) : ℚ)
    issuesOpenedLast6Months := .num ((issues_opened_last_6m.getD 0 : ℤ) : ℚ)
    avgIssueCloseTime :=
      match avg with
      | some v => .num v
      | none => .num 0
    commits := valOfOptInt total_commits
    dateOfLastCommit := valOfOptStr latest_commit_date
    daysOfActivity := valOfOptInt ages.2
    commitsInLast6Months := .num stats.1
    committersParticipation :=
      if committers = [] then .num 0 else .num committers.length }

/-- One input row: `row.get('Github_links')`, `none` when the cell is not a
string (the `isinstance(github_url, str)` guard). -/
structure Row where
  github_links : Option String
deriving DecidableEq, Repr

/-- The response to the repository-info request. -/
structure RepoInfoResp where
  status : Nat
  info : RepoInfo
deriving DecidableEq, Repr

/-- Everything outside the collector that one run observes: the regex
searcher, the upstream responses keyed by owner/repo, the timestamp parser
and the clock.  Identical upstream responses = equal `Env`s. -/
structure Env where
  search : String → Option (String × String)
  repoInfo : String → String → RepoInfoResp
  totalCommits : String → String → Option ℤ
  latestCommitDate : String → String → Option String
  recentCommits : String → String → List Commit
  allCommits : String → String → List Commit
  totalIssues : String → String → Option ℤ
  openIssues : String → String → Option ℤ
  closedIssues : String → String → Option ℤ
  issuesOpened6m : String → String → Option ℤ
  closedRecentItems : String → String → List Issue
  parse : String → Option ℚ
  now : ℚ
  sixMonthsAgo : ℚ

/-- One iteration of the row loop of `get_gh_data` (lines 153-252):
skip a non-string cell, skip a row whose URL the pattern does not match,
skip a repository whose info request is not 200; otherwise emit a record. -/
def processRow (env : Env) (row : Row) : Option Record :=
  match row.github_links with
  | none => none
  | some url =>
    match env.search url with
    | none => none
    | some (owner, repo) =>
      if (env.repoInfo owner repo).status ≠ 200 then none
      else
        some (buildRecord env.parse env.now env.sixMonthsAgo
          (env.repoInfo owner repo).info
          (env.totalCommits owner repo) (env.latestCommitDate owner repo)
          (env.recentCommits owner repo) (env.allCommits owner repo)
          (env.totalIssues owner repo) (env.openIssues owner repo)
          (env.closedIssues owner repo) (env.issuesOpened6m owner repo)
          (env.closedRecentItems owner repo))

/-- `get_gh_data()`, lines 143-255: the emitted records, in row order. -/
def get_gh_data (env : Env) (rows : List Row) : List Record :=
  rows.filterMap (processRow env)

/-! ## Helper lemmas -/

/-- `_respect_rate_limit` neither sleeps nor raises when the rate-limit
condition does not hold (remaining header not `'0'`, or reset header
absent/empty). -/
theorem respect_rate_limit_none (now : ℤ) (r : HttpResp)
    (h : r.rlRemaining ≠ some "0" ∨ r.rlReset = none ∨ r.rlReset = some "") :
    respect_rate_limit now r = .ok none := by
  obtain ⟨st, rem, reset⟩ := r
  simp only [respect_rate_limit]
  split
  · rcases rem with _ | rem <;> rcases reset with _ | reset
    · rfl
    · rfl
    · rfl
    · dsimp only
      rw [if_neg]
      rintro ⟨h1, h2⟩
      simp only at h
      rcases h with h | h | h
      · exact h (by rw [h1])
      · exact Option.noConfusion h
      · exact h2 (Option.some.inj h)
  · rfl

/-! ## Claim theorems for the request executor -/

/-- C1: the failing input.  When every one of the five attempts raises a
transport-level exception, `resp` is never assigned, and `return resp`
after the loop raises `UnboundLocalError` to the caller — the executor does
NOT return a response; the five attempts were made and each slept 1.5 s. -/
theorem safe_request_all_raise_unbound_local :
    (safe_request fun _ => (0, AttemptOutcome.raise)).result =
      Except.error PyExn.unboundLocal ∧
    (safe_request fun _ => (0, AttemptOutcome.raise)).requests = 5 := by
  constructor <;> rfl

/-- C5 counterexample: attempt 0 yields a 403 that is not a rate-limit
condition (remaining header `"1"`), attempt 1 yields 200.  The claim says a
1.5 s sleep separates the two attempts; the run performs no sleep at all
(`continue` skips the `time.sleep(1.5)` line). -/
def attNonRateLimit403 : Nat → ℤ × AttemptOutcome := fun i =>
  if i = 0 then (0, .ok { status := 403, rlRemaining := some "1", rlReset := some "100" })
  else (0, .ok { status := 200 })

theorem non_rate_limit_403_sleeps_nothing :
    (safe_request attNonRateLimit403).sleeps = [] ∧
    (safe_request attNonRateLimit403).requests = 2 := by
  constructor <;> rfl

/-- C5 amended: on a 403 response that is not a rate-limit condition the
executor retries immediately — it performs NO sleep before the next of its
at most 5 attempts (the 1.5 s sleep applies only to transport failures and
to non-403, non-2xx statuses) — and the retry consumes one attempt like any
other. -/
theorem safe_request_403_no_sleep_retry (att : Nat → ℤ × AttemptOutcome)
    (i fuel : Nat) (last : Option HttpResp) (now : ℤ) (r : HttpResp)
    (h1 : att i = (now, .ok r)) (h2 : r.status = 403)
    (h3 : r.rlRemaining ≠ some "0" ∨ r.rlReset = none ∨ r.rlReset = some "") :
    safe_request_go att i (fuel + 1) last =
      { result := (safe_request_go att (i + 1) fuel (some r)).result,
        sleeps := (safe_request_go att (i + 1) fuel (some r)).sleeps,
        requests := (safe_request_go att (i + 1) fuel (some r)).requests + 1 } := by
  simp only [safe_request_go, h1, h2, respect_rate_limit_none now r h3, if_pos]

theorem safe_request_403_no_sleep_retry_witness :
    safe_request_go attNonRateLimit403 0 5 none =
      { result := (safe_request_go attNonRateLimit403 1 4
          (some { status := 403, rlRemaining := some "1", rlReset := some "100" })).result,
        sleeps := (safe_request_go attNonRateLimit403 1 4
          (some { status := 403, rlRemaining := some "1", rlReset := some "100" })).sleeps,
        requests := (safe_request_go attNonRateLimit403 1 4
          (some { status := 403, rlRemaining := some "1", rlReset := some "100" })).requests + 1 } :=
  safe_request_403_no_sleep_retry attNonRateLimit403 0 4 none 0
    { status := 403, rlRemaining := some "1", rlReset := some "100" }
    rfl rfl (Or.inl (by decide))

/-- C6: on a 403 with remaining-quota header `"0"` and a (numeric,
non-empty) reset header, the executor sleeps exactly
`max 0 (reset - now) + 1` seconds, then continues with the next attempt of
the same request, consuming exactly one unit of the shared 5-attempt
budget, like every other retry; when the reset lies 5 seconds in the
future that sleep is at least 5 seconds. -/
theorem safe_request_rate_limit_wait_and_retry (att : Nat → ℤ × AttemptOutcome)
    (i fuel : Nat) (last : Option HttpResp) (now : ℤ) (r : HttpResp)
    (s : String) (ts : ℤ)
    (h1 : att i = (now, .ok r)) (h2 : r.status = 403)
    (h3 : r.rlRemaining = some "0") (h4 : r.rlReset = some s)
    (h5 : s ≠ "") (h6 : toIntPy s = some ts) :
    safe_request_go att i (fuel + 1) last =
      { result := (safe_request_go att (i + 1) fuel (some r)).result,
        sleeps := ((max 0 (ts - now) + 1 : ℤ) : ℚ) ::
          (safe_request_go att (i + 1) fuel (some r)).sleeps,
        requests := (safe_request_go att (i + 1) fuel (some r)).requests + 1 } ∧
    (ts - now = 5 → (5 : ℚ) ≤ ((max 0 (ts - now) + 1 : ℤ) : ℚ)) := by
  constructor
  · have hr : respect_rate_limit now r = .ok (some ((max 0 (ts - now) + 1 : ℤ) : ℚ)) := by
      simp only [respect_rate_limit, h2, if_pos, h3, h4, h6]
      rw [if_pos ⟨trivial, h5⟩]
    simp only [safe_request_go, h1, h2, hr, if_pos]
  · intro h
    rw [h]
    norm_num

/-- A concrete rate-limited run: reset timestamp 105, clock at 100. -/
def attRateLimited403 : Nat → ℤ × AttemptOutcome := fun i =>
  if i = 0 then (100, .ok { status := 403, rlRemaining := some "0", rlReset := some "105" })
  else (0, .ok { status := 200 })

theorem safe_request_rate_limit_wait_and_retry_witness :
    safe_request_go attRateLimited403 0 5 none =
      { result := (safe_request_go attRateLimited403 1 4
          (some { status := 403, rlRemaining := some "0", rlReset := some "105" })).result,
        sleeps := ((max 0 ((105 : ℤ) - 100) + 1 : ℤ) : ℚ) ::
          (safe_request_go attRateLimited403 1 4
            (some { status := 403, rlRemaining := some "0", rlReset := some "105" })).sleeps,
        requests := (safe_request_go attRateLimited403 1 4
          (some { status := 403, rlRemaining := some "0", rlReset := some "105" })).requests + 1 } ∧
    ((105 : ℤ) - 100 = 5 → (5 : ℚ) ≤ ((max 0 ((105 : ℤ) - 100) + 1 : ℤ) : ℚ)) :=
  safe_request_rate_limit_wait_and_retry attRateLimited403 0 4 none 100
    { status := 403, rlRemaining := some "0", rlReset := some "105" }
    "105" 105 rfl rfl rfl rfl (by decide) (by decide)

/-! ## Claim theorem for the paginator -/

/-- The generic shape of a finished page walk: if every page strictly
before offset `j` is a full 200 page and the page at offset `j` stops the
walk, the walk visits exactly the pages `s, s+1, …, s+j` and accumulates
the batches of the 200-status pages among them. -/
theorem page_walk_go_spec (pages : Nat → Page) :
    ∀ j s fuel, j + 1 ≤ fuel →
      (∀ p, s ≤ p → p < s + j →
        (pages p).status = 200 ∧ (pages p).batch.length = 100) →
      ((pages (s + j)).status ≠ 200 ∨ (pages (s + j)).batch = [] ∨
        (pages (s + j)).batch.length < 100) →
      page_walk_go pages fuel s =
        ((List.range' s (j + 1)).flatMap
            (fun p => if (pages p).status = 200 then (pages p).batch else []),
          List.range' s (j + 1)) := by
  intro j
  induction j with
  | zero =>
    intro s fuel hf hgood hstop
    obtain ⟨f, rfl⟩ : ∃ f, fuel = f + 1 := ⟨fuel - 1, by omega⟩
    rw [Nat.add_zero] at hstop
    simp only [Nat.zero_add, List.range'_one, List.flatMap_cons, List.flatMap_nil,
      List.append_nil]
    by_cases hs : (pages s).status = 200
    · by_cases hb : (pages s).batch = []
      · simp [page_walk_go, hs, hb]
      · have hlen : (pages s).batch.length < 100 := by
          rcases hstop with h | h | h
          · exact absurd hs h
          · exact absurd h hb
          · exact h
        simp [page_walk_go, hs, hb, hlen]
    · simp [page_walk_go, hs]
  | succ j ih =>
    intro s fuel hf hgood hstop
    obtain ⟨f, rfl⟩ : ∃ f, fuel = f + 1 := ⟨fuel - 1, by omega⟩
    have hgs := hgood s le_rfl (by omega)
    have hne : (pages s).batch ≠ [] := by
      intro h
      have h2 := hgs.2
      rw [h] at h2
      exact absurd h2 (by decide)
    have hnlt : ¬ (pages s).batch.length < 100 := by
      rw [hgs.2]
      exact Nat.lt_irrefl 100
    have hstep : page_walk_go pages (f + 1) s =
        ((pages s).batch ++ (page_walk_go pages f (s + 1)).1,
          s :: (page_walk_go pages f (s + 1)).2) := by
      simp [page_walk_go, hgs.1, hne, hnlt]
    have ih' := ih (s + 1) f (by omega)
      (fun p hp1 hp2 => hgood p (by omega) (by omega))
      (by
        have h : s + 1 + j = s + (j + 1) := by omega
        rw [h]
        exact hstop)
    rw [hstep, ih', List.range'_succ s (j + 1) 1]
    simp [List.flatMap_cons, hgs.1]

/-- C7: the exhaustive commit page-walk (`_collect_all_commits`, and the
structurally identical `_collect_commits_since`) requests pages `1, …, k`
in strictly increasing order and stops at the first page whose response is
non-200 (in particular any non-2xx response), empty, or shorter than the
page size 100, returning everything accumulated (the batches of the
200-status pages visited).  The witness below instantiates the 250-item
scenario: pages of 100, 100 and 50 items, exactly 3 requests, 250 items
returned. -/
theorem collect_all_commits_walk (pages : Nat → Page) (k fuel : Nat)
    (hk : 1 ≤ k) (hf : k ≤ fuel)
    (hgood : ∀ p, p < k → 1 ≤ p →
      (pages p).status = 200 ∧ (pages p).batch.length = 100)
    (hstop : (pages k).status ≠ 200 ∨ (pages k).batch = [] ∨
      (pages k).batch.length < 100) :
    (collect_all_commits pages fuel).2 = List.range' 1 k ∧
    (collect_all_commits pages fuel).1 =
      (List.range' 1 k).flatMap
        (fun p => if (pages p).status = 200 then (pages p).batch else []) := by
  obtain ⟨j, rfl⟩ : ∃ j, k = j + 1 := ⟨k - 1, by omega⟩
  have h := page_walk_go_spec pages j 1 fuel (by omega)
    (fun p hp1 hp2 => hgood p (by omega) hp1)
    (by
      have he : 1 + j = j + 1 := by omega
      rw [he]
      exact hstop)
  rw [collect_all_commits, h]
  exact ⟨rfl, rfl⟩

/-- The 250-item result set: page 1 and 2 hold 100 items each, page 3 the
remaining 50. -/
def pages250 : Nat → Page := fun p =>
  if p = 1 then { status := 200, batch := List.range 100 }
  else if p = 2 then { status := 200, batch := List.range' 100 100 }
  else if p = 3 then { status := 200, batch := List.range' 200 50 }
  else { status := 200, batch := [] }

set_option maxRecDepth 4000 in
theorem collect_all_commits_walk_witness :
    (collect_all_commits pages250 10).2 = List.range' 1 3 ∧
    (collect_all_commits pages250 10).1.length = 250 := by
  have h := collect_all_commits_walk pages250 3 10 (by decide) (by decide)
    (by decide) (by decide)
  exact ⟨h.1, by rw [h.2]; rfl⟩

/-! ## Claim theorems for the aggregator and the assembler -/

/-- A record built with every upstream probe failed / empty: the repo-info
body carries no fields, the commit-count probe returned `None`, no commits
and no issues were fetched. -/
def recDefault : Record :=
  buildRecord (fun _ => none) 0 0 {} none none [] [] none none none none []

/-- C2 counterexample: with zero qualifying closed issues, the value the
final emitted record holds for `AvgIssueCloseTime` is the number `0`
(line 245 coerces the in-loop `None` with `else 0`), which is NOT an
explicit absence — it is indistinguishable from a true average of 0 days. -/
theorem avg_close_time_absence_not_preserved :
    recDefault.avgIssueCloseTime = Val.num 0 ∧ Val.num 0 ≠ Val.null :=
  ⟨rfl, by decide⟩

/-- Timestamp table for the two-issue average scenario: issue 1 closed
2 days after creation, issue 2 closed 4 days after creation. -/
def parseC2 : String → Option ℚ := fun s =>
  if s = "c1" then some 0
  else if s = "x1" then some 172800
  else if s = "c2" then some 0
  else if s = "x2" then some 345600
  else none

def issuesC2 : List Issue :=
  [{ created_at := some "c1", closed_at := some "x1" },
   { created_at := some "c2", closed_at := some "x2" }]

/-- C2 amended: with qualifying deltas of 2.0 and 4.0 days the computed
average is 3.0 (rounded to 2 decimals) and the record holds `3`; with zero
qualifying issues the in-loop value is the explicit absence `None`, but the
field written in the final emitted record is the number `0`, so the absence
is not preserved in the output. -/
theorem avg_close_time_values :
    avgIssueCloseTime (closeDeltas parseC2 0 issuesC2) = some 3 ∧
    (buildRecord parseC2 0 0 {} none none [] [] none none none none
      issuesC2).avgIssueCloseTime = Val.num 3 ∧
    avgIssueCloseTime (closeDeltas parseC2 0 []) = none ∧
    recDefault.avgIssueCloseTime = Val.num 0 := by
  have hd : closeDeltas parseC2 0 issuesC2 = [2, 4] := by
    norm_num +decide [closeDeltas, issuesC2, parseC2, pyTruthy]
  have ha : avgIssueCloseTime (closeDeltas parseC2 0 issuesC2) = some 3 := by
    rw [hd]
    simp only [avgIssueCloseTime]
    rw [if_neg (by simp)]
    norm_num [pyRound2, roundHalfEven]
  exact ⟨ha, by simp [buildRecord, ha], rfl, rfl⟩

/-- C3 counterexample: the `commits` field of the emitted record is the
raw `total_commits` value with no default, so when the commit-count probe
fails the record carries a missing value — the record shape is not
column-stable in the sense the claim states. -/
theorem commits_field_missing_on_probe_failure :
    recDefault.commits = Val.null :=
  rfl

/-- C3 amended: every derived count field of the emitted record except
`commits` and `openIssues` always holds a number (zero-defaulted);
`commits` is missing exactly when the commit-count probe failed, and
`openIssues` is missing exactly when both the issue search failed and the
raw API field is absent. -/
theorem record_count_fields_have_defaults
    (parse : String → Option ℚ) (now sma : ℚ) (info : RepoInfo)
    (tc : Option ℤ) (lcd : Option String) (rc ac : List Commit)
    (ti oi ci io6 : Option ℤ) (cri : List Issue) :
    (∃ a, (buildRecord parse now sma info tc lcd rc ac ti oi ci io6
      cri).closedIssues = Val.num a) ∧
    (∃ a, (buildRecord parse now sma info tc lcd rc ac ti oi ci io6
      cri).totalIssues = Val.num a) ∧
    (∃ a, (buildRecord parse now sma info tc lcd rc ac ti oi ci io6
      cri).issuesOpenedLast6Months = Val.num a) ∧
    (∃ a, (buildRecord parse now sma info tc lcd rc ac ti oi ci io6
      cri).avgIssueCloseTime = Val.num a) ∧
    (∃ a, (buildRecord parse now sma info tc lcd rc ac ti oi ci io6
      cri).commitsInLast6Months = Val.num a) ∧
    (∃ a, (buildRecord parse now sma info tc lcd rc ac ti oi ci io6
      cri).committersParticipation = Val.num a) ∧
    ((buildRecord parse now sma info tc lcd rc ac ti oi ci io6
      cri).commits = Val.null ↔ tc = none) ∧
    ((buildRecord parse now sma info tc lcd rc ac ti oi ci io6
      cri).openIssues = Val.null ↔ oi = none ∧ info.open_issues_count = none) := by
  refine ⟨⟨_, rfl⟩, ⟨_, rfl⟩, ⟨_, rfl⟩, ?_, ⟨_, rfl⟩, ?_, ?_, ?_⟩
  · rcases h : avgIssueCloseTime (closeDeltas parse sma cri) with _ | v
    · exact ⟨0, by simp [buildRecord, h]⟩
    · exact ⟨v, by simp [buildRecord, h]⟩
  · by_cases hc : uniqueCommitters ac = []
    · exact ⟨0, by simp [buildRecord, hc]⟩
    · exact ⟨(uniqueCommitters ac).length, by simp [buildRecord, hc]⟩
  · rcases tc with _ | n <;> simp [buildRecord, valOfOptInt]
  · rcases oi with _ | n
    · rcases h : info.open_issues_count with _ | m <;>
        simp [buildRecord, valOfOptInt, h]
    · simp [buildRecord]

theorem record_count_fields_have_defaults_witness :
    (∃ a, recDefault.closedIssues = Val.num a) ∧
    (∃ a, recDefault.totalIssues = Val.num a) ∧
    (∃ a, recDefault.issuesOpenedLast6Months = Val.num a) ∧
    (∃ a, recDefault.avgIssueCloseTime = Val.num a) ∧
    (∃ a, recDefault.commitsInLast6Months = Val.num a) ∧
    (∃ a, recDefault.committersParticipation = Val.num a) ∧
    (recDefault.commits = Val.null ↔ (none : Option ℤ) = none) ∧
    (recDefault.openIssues = Val.null ↔
      (none : Option ℤ) = none ∧ ({} : RepoInfo).open_issues_count = none) :=
  record_count_fields_have_defaults (fun _ => none) 0 0 {} none none [] []
    none none none none []

/-- A commit whose committer timestamp is missing but whose author login
is present. -/
def cBadDate : Commit :=
  { date := none, authorLogin := some "alice", committerLogin := none,
    email := none }

/-- C4 counterexample: a commit with a missing committer timestamp is
excluded from the 6-month window count (left value 0), yet its identity
"alice" IS in the unique-committer set — that set is built from the
full-history fetch with no date check at all, contradicting the claimed
exclusion. -/
theorem bad_date_commit_still_in_committer_set :
    recentStats (fun _ => none) 0 [cBadDate] = (0, []) ∧
    uniqueCommitters [cBadDate] = ["alice"] :=
  ⟨rfl, rfl⟩

/-- C4 amended: a commit whose committer timestamp is missing or fails to
parse is excluded from the 6-month window commit count and the
unique-commit-day set, and processing of the remaining commits continues;
but any commit of the full-history fetch contributes its resolved identity
to the unique-committer set regardless of its timestamp. -/
theorem bad_date_commit_excluded_from_window (parse : String → Option ℚ)
    (sma : ℚ) (c : Commit) (rest : List Commit)
    (h : ¬ pyTruthy c.date ∨ parse (c.date.getD "") = none) :
    recentStats parse sma (c :: rest) = recentStats parse sma rest ∧
    ∀ allC : List Commit, c ∈ allC → loginOf c ∈ uniqueCommitters allC := by
  constructor
  · simp only [recentStats, List.foldl_cons]
    congr 1
    rcases h with h | h
    · simp [h]
    · by_cases ht : pyTruthy c.date
      · simp [ht, h]
      · simp [ht]
  · intro allC hmem
    rw [uniqueCommitters, List.mem_dedup]
    exact List.mem_map_of_mem loginOf hmem

theorem bad_date_commit_excluded_from_window_witness :
    recentStats (fun _ => none) 0 [cBadDate] = recentStats (fun _ => none) 0 [] ∧
    loginOf cBadDate ∈ uniqueCommitters [cBadDate] := by
  have h := bad_date_commit_excluded_from_window (fun _ => none) 0 cBadDate []
    (Or.inl (by decide))
  exact ⟨h.1, h.2 [cBadDate] (List.mem_singleton.mpr rfl)⟩

/-- C8: a row whose cell is not a string, a row whose URL does not match
the `github.com/owner/name` pattern, and a row whose repository-info
request is not 200, each produce NO record (not even a partial one), and
the remaining rows are processed unchanged. -/
theorem resolve_or_fetch_failure_skips_row (env : Env) (row : Row)
    (rest : List Row)
    (h : row.github_links = none ∨
      (∃ url, row.github_links = some url ∧ env.search url = none) ∨
      (∃ url owner repo, row.github_links = some url ∧
        env.search url = some (owner, repo) ∧
        (env.repoInfo owner repo).status ≠ 200)) :
    processRow env row = none ∧
    get_gh_data env (row :: rest) = get_gh_data env rest := by
  have hp : processRow env row = none := by
    rcases h with h | ⟨url, h1, h2⟩ | ⟨url, owner, repo, h1, h2, h3⟩
    · simp [processRow, h]
    · simp [processRow, h1, h2]
    · simp [processRow, h1, h2, h3]
  exact ⟨hp, by simp [get_gh_data, List.filterMap_cons, hp]⟩

/-- An environment in which every upstream request fails. -/
def envTriv : Env :=
  { search := fun _ => none
    repoInfo := fun _ _ => { status := 404, info := {} }
    totalCommits := fun _ _ => none
    latestCommitDate := fun _ _ => none
    recentCommits := fun _ _ => []
    allCommits := fun _ _ => []
    totalIssues := fun _ _ => none
    openIssues := fun _ _ => none
    closedIssues := fun _ _ => none
    issuesOpened6m := fun _ _ => none
    closedRecentItems := fun _ _ => []
    parse := fun _ => none
    now := 0
    sixMonthsAgo := 0 }

theorem resolve_or_fetch_failure_skips_row_witness :
    processRow envTriv { github_links := none } = none ∧
    get_gh_data envTriv [{ github_links := none }] = get_gh_data envTriv [] :=
  resolve_or_fetch_failure_skips_row envTriv { github_links := none } []
    (Or.inl rfl)

/-- A second identity for the permutation-invariance witness. -/
def cBob : Commit :=
  { date := none, authorLogin := some "bob", committerLogin := none,
    email := none }

/-- C9: two runs over the same rows with identical upstream responses
(equal environments) emit identical records; and the committer set — the
only set influencing the output — contributes only its cardinality, which
is invariant under any reordering of the identities inserted into it, so
Python's unordered-set iteration order cannot leak into any emitted
field. -/
theorem collector_deterministic (env1 env2 : Env) (rows1 rows2 : List Row)
    (he : env1 = env2) (hr : rows1 = rows2) :
    get_gh_data env1 rows1 = get_gh_data env2 rows2 ∧
    ∀ cs1 cs2 : List Commit, (cs1.map loginOf).Perm (cs2.map loginOf) →
      (uniqueCommitters cs1).length = (uniqueCommitters cs2).length := by
  subst he hr
  exact ⟨rfl, fun cs1 cs2 hp => hp.dedup.length_eq⟩

theorem collector_deterministic_witness :
    get_gh_data envTriv [] = get_gh_data envTriv [] ∧
    (uniqueCommitters [cBadDate, cBob]).length =
      (uniqueCommitters [cBob, cBadDate]).length := by
  have h := collector_deterministic envTriv envTriv [] [] rfl rfl
  exact ⟨h.1, h.2 [cBadDate, cBob] [cBob, cBadDate] (by decide)⟩

/-- C10: when the creation timestamp parses but the latest-commit
timestamp is present and fails to parse, the single `try` block of
lines 223-231 routes the `ValueError` to the `except` that resets
`repo_age_days` to `None`, so the emitted record's `repoAge` is missing
rather than the age derivable from the creation timestamp alone. -/
theorem repo_age_cleared_by_bad_commit_date
    (parse : String → Option ℚ) (now sma : ℚ) (info : RepoInfo)
    (tc : Option ℤ) (lcd : Option String) (rc ac : List Commit)
    (ti oi ci io6 : Option ℤ) (cri : List Issue) (cdt : ℚ)
    (h1 : pyTruthy info.created_at)
    (h2 : parse (info.created_at.getD "") = some cdt)
    (h3 : pyTruthy lcd) (h4 : parse (lcd.getD "") = none) :
    (buildRecord parse now sma info tc lcd rc ac ti oi ci io6 cri).repoAge =
      Val.null := by
  have hc : computeAges parse now info.created_at lcd = (none, none) := by
    simp [computeAges, h1, h2, h3, h4]
  simp [buildRecord, hc, valOfOptInt]

def parseC10 : String → Option ℚ := fun s =>
  if s = "2020-01-01T00:00:00+00:00" then some 0 else none

theorem repo_age_cleared_by_bad_commit_date_witness :
    (buildRecord parseC10 0 0 { created_at := some "2020-01-01T00:00:00+00:00" }
      none (some "not-a-date") [] [] none none none none []).repoAge =
      Val.null :=
  repo_age_cleared_by_bad_commit_date parseC10 0 0
    { created_at := some "2020-01-01T00:00:00+00:00" } none (some "not-a-date")
    [] [] none none none none [] 0 (by decide) (by decide) (by decide)
    (by decide)

end GhClient
